import Mathlib

/-!
Verification of the cloud-learning-platform API gateway and event-bus client.

Shallow embedding of `src/gateway/main.py` and
`src/services/common/kafka_handler.py`: pure functions over explicit
request/response values; network effects are modelled as function-valued
environment parameters, and the list of outbound calls actually issued is
returned alongside each result.  HTTP header tables are association lists;
per the ASGI specification, inbound request header names are lowercased by
the server before they reach the application, so the gateway sees lowercase
keys.
-/

namespace Gateway

/-- JSON values, the payload type of `json.dumps` / `response.json()`. -/
inductive Json where
  | null
  | bool (b : Bool)
  | num (n : Int)
  | str (s : String)
  | arr (xs : List Json)
  | obj (fields : List (String × Json))

mutual

/-- Python `json.dumps` with default separators (", " and ": "),
string escaping elided. -/
def json_dumps : Json → String
  | .null => "null"
  | .bool true => "true"
  | .bool false => "false"
  | .num n => toString n
  | .str s => "\"" ++ s ++ "\""
  | .arr xs => "[" ++ json_dumps_list xs ++ "]"
  | .obj fs => "\x7b" ++ json_dumps_fields fs ++ "\x7d"

/-- Comma-separated serialization of JSON array elements. -/
def json_dumps_list : List Json → String
  | [] => ""
  | [x] => json_dumps x
  | x :: y :: xs => json_dumps x ++ ", " ++ json_dumps_list (y :: xs)

/-- Comma-separated serialization of JSON object fields. -/
def json_dumps_fields : List (String × Json) → String
  | [] => ""
  | [(k, v)] => "\"" ++ k ++ "\": " ++ json_dumps v
  | (k, v) :: f :: fs => "\"" ++ k ++ "\": " ++ json_dumps v ++ ", " ++ json_dumps_fields (f :: fs)

end

/-- ASCII lowering of one character, as Python `str.lower()` acts on the
ASCII header names and header keys this system manipulates. -/
def lower_char (c : Char) : Char :=
  if 'A' ≤ c ∧ c ≤ 'Z' then Char.ofNat (c.toNat + 32) else c

/-- ASCII `str.lower()`. -/
def str_lower (s : String) : String := ⟨s.data.map lower_char⟩

/-- Whether the first character list is a leading segment of the second. -/
def leading_match : List Char → List Char → Bool
  | [], _ => true
  | _ :: _, [] => false
  | p :: ps, c :: cs => p == c && leading_match ps cs

/-- Python `s.startswith(pat)`. -/
def str_starts_with (s pat : String) : Bool := leading_match pat.data s.data

/-- Splitting a character list at every occurrence of `sep`, keeping empty
groups, as Python `str.split(sep)` does for a one-character separator. -/
def split_chars (sep : Char) : List Char → List (List Char)
  | [] => [[]]
  | c :: rest =>
    match split_chars sep rest with
    | [] => [[]]
    | g :: gs => if c == sep then [] :: g :: gs else (c :: g) :: gs

/-- Python `s.split(sep)` for a one-character separator. -/
def str_split (s : String) (sep : Char) : List String :=
  (split_chars sep s.data).map (fun cs => ⟨cs⟩)

/-- Case-insensitive header lookup (`Headers.get` in Starlette/httpx). -/
def headers_get (hs : List (String × String)) (k : String) : Option String :=
  (hs.find? (fun kv => str_lower kv.1 == str_lower k)).map (·.2)

/-- Case-insensitive header set (`MutableHeaders.__setitem__` in Starlette):
drops existing entries under the key and appends the new pair. -/
def header_set (hs : List (String × String)) (k v : String) : List (String × String) :=
  hs.filter (fun kv => str_lower kv.1 != str_lower k) ++ [(k, v)]

/-- An inbound HTTP request as seen by the gateway.  `headers` is
`dict(request.headers)`: lowercase keys, one entry per header name. -/
structure Request where
  method : String
  path : String
  headers : List (String × String)
  queryParams : List (String × String)
  body : List Nat
  client : Option String
deriving DecidableEq, Repr

/-- Response bodies: raw bytes (`Response(content=...)`) or a JSON
document (`JSONResponse` / returning a dict from a handler). -/
inductive Body where
  | raw (bs : List Nat)
  | json (j : Json)

/-- An HTTP response produced by the gateway. -/
structure Resp where
  status : Nat
  headers : List (String × String)
  body : Body
  mediaType : Option String

/-- `fastapi.HTTPException`, raised by the proxy helpers. -/
structure HTTPException where
  status_code : Nat
  detail : String
deriving DecidableEq, Repr

/-- One structured log line of the middleware:
`f"\x7brequest.method\x7d \x7brequest.url.path\x7d - \x7bresponse.status_code\x7d - \x7bprocess_time:.3f\x7ds"`. -/
structure LogLine where
  method : String
  path : String
  status : Nat
  latency : Nat
deriving DecidableEq, Repr

/-- The `SERVICES` registry of `src/gateway/main.py` (lines 30-36), with the
default base URLs used when no environment override is present. -/
def SERVICES : List (String × String) :=
  [("stt", "http://stt-service:8001"),
   ("tts", "http://tts-service:8002"),
   ("documents", "http://document-service:8003"),
   ("chat", "http://chat-service:8004"),
   ("quiz", "http://quiz-service:8005")]

/-- `verify_token` (line 42-45): a token is accepted iff its length
exceeds 10 characters. -/
def verify_token (token : String) : Bool :=
  decide (token.length > 10)

/-- Rate-limiter configuration: window length and per-window ceiling. -/
structure RateLimitConfig where
  windowDuration : Nat
  ceiling : Nat
deriving DecidableEq, Repr

/-- Per-client rate-limit record (spec §3): count and window start. -/
structure RateLimitWindow where
  count : Nat
  windowStart : Nat
deriving DecidableEq, Repr

/-- Replace-or-insert into the rate-limit table. -/
def table_set (t : List (String × RateLimitWindow)) (ip : String) (w : RateLimitWindow) :
    List (String × RateLimitWindow) :=
  t.filter (fun kv => kv.1 != ip) ++ [(ip, w)]

/-- Modelled from the spec: `check_rate_limit` is invoked by the middleware
(src/gateway/main.py line 54) but its definition is not under src/.
Spec §3 RateLimitWindow: a per-client-identifier record
(count, windowStart), reset when the current time exceeds
windowStart + windowDuration; spec §4.1 stage 1: increment the count and
reject, with a "too many requests" classification, when the count within
the current window exceeds the configured ceiling.  Returns whether the
request is admitted, together with the updated table. -/
def check_rate_limit (cfg : RateLimitConfig) (table : List (String × RateLimitWindow))
    (now : Nat) (ip : String) : Bool × List (String × RateLimitWindow) :=
  let w0 := ((table.lookup ip).getD ⟨0, now⟩)
  let w1 := if w0.windowStart + cfg.windowDuration < now then ⟨0, now⟩ else w0
  let w2 : RateLimitWindow := ⟨w1.count + 1, w1.windowStart⟩
  (decide (w2.count ≤ cfg.ceiling), table_set table ip w2)

/-- Paths excluded from authentication (line 62). -/
def auth_exempt_paths : List String :=
  ["/", "/health", "/services/status", "/docs", "/openapi.json"]

/-- The 429 response of the rate-limit stage (lines 55-58). -/
def rate_limit_response : Resp :=
  { status := 429, headers := [],
    body := .json (.obj [("detail", .str "Rate limit exceeded. Security policy enforcement.")]),
    mediaType := some "application/json" }

/-- The 401 response of the authentication stage (lines 65-68). -/
def unauthorized_response : Resp :=
  { status := 401, headers := [],
    body := .json (.obj [("detail", .str "Unauthorized: JWT Token required (Phase 3 Compliance)")]),
    mediaType := some "application/json" }

/-- The 403 response of the authentication stage (lines 72-75). -/
def forbidden_response : Resp :=
  { status := 403, headers := [],
    body := .json (.obj [("detail", .str "Forbidden: Invalid Security Token")]),
    mediaType := some "application/json" }

/-- Stage 2 of the middleware (lines 60-75): `none` means the request may
proceed to `call_next`; `some r` is an early rejection. -/
def auth_check (req : Request) : Option Resp :=
  if req.path ∈ auth_exempt_paths then none
  else
    match headers_get req.headers "Authorization" with
    | none => some unauthorized_response
    | some s =>
      if s == "" || !str_starts_with s "Bearer " then some unauthorized_response
      else
        let token := (str_split s ' ').getD 1 ""
        if verify_token token then none else some forbidden_response

/-- Stages 2-3 of the middleware, reached only when the rate limiter admits
the request (lines 60-84): authentication, then `call_next`, header
instrumentation and the single log line.  `elapsed` is the measured
`process_time`. -/
def middleware_after_rate_limit (elapsed : Nat) (req : Request)
    (call_next : Request → Resp) : Resp × List LogLine :=
  match auth_check req with
  | some resp => (resp, [])
  | none =>
    let response := call_next req
    let hs := header_set (header_set response.headers "X-Process-Time" (toString elapsed))
        "X-Content-Type-Options" "nosniff"
    let response := { response with headers := hs }
    (response, [⟨req.method, req.path, response.status, elapsed⟩])

/-- `security_and_logging_middleware` (lines 47-84).  Returns the response,
the updated rate-limit table, and the log lines emitted.  `now` is the
clock at entry and `elapsed` the measured processing time. -/
def security_and_logging_middleware (cfg : RateLimitConfig)
    (table : List (String × RateLimitWindow)) (now elapsed : Nat)
    (req : Request) (call_next : Request → Resp) :
    Resp × List (String × RateLimitWindow) × List LogLine :=
  let client_ip := req.client.getD "unknown"
  let rl := check_rate_limit cfg table now client_ip
  if rl.1 then
    let (resp, logs) := middleware_after_rate_limit elapsed req call_next
    (resp, rl.2, logs)
  else
    (rate_limit_response, rl.2, [])

/-! ## Reverse proxy (`proxy_request`, lines 141-203) -/

/-- The outbound request handed to `client.request` (lines 166-172). -/
structure Outbound where
  method : String
  url : String
  content : List Nat
  headers : List (String × String)
  params : List (String × String)
deriving DecidableEq, Repr

/-- Outcome of the single outbound call of `proxy_request`: an HTTP
response, or one of the exceptions the source discriminates
(`httpx.ConnectError`, `httpx.TimeoutException`, anything else). -/
inductive BackendResult where
  | success (status : Nat) (headers : List (String × String)) (content : List Nat)
  | connectError
  | timeout
  | failure (msg : String)
deriving DecidableEq, Repr

/-- The response headers dropped when relaying (line 176). -/
def excluded_headers : List String :=
  ["content-encoding", "content-length", "transfer-encoding", "connection"]

/-- The outbound request built by `proxy_request` for a resolved service
(lines 146-172): target URL `base/api/service/path`, inbound method unless
overridden, inbound body, query params, and the inbound headers minus the
`host` and `content-length` entries popped from `dict(request.headers)`. -/
def proxy_outbound (service base_url path : String) (method : Option String)
    (req : Request) : Outbound :=
  { method := method.getD req.method,
    url := base_url ++ "/api/" ++ service ++ "/" ++ path,
    content := req.body,
    headers := req.headers.filter (fun kv => !(kv.1 == "host" || kv.1 == "content-length")),
    params := req.queryParams }

/-- `proxy_request` (lines 141-203).  `backend` is the network: it maps the
outbound request to its outcome.  Returns the handler result (`.error` is a
raised `HTTPException`) together with the list of outbound calls issued. -/
def proxy_request (service path : String) (req : Request) (method : Option String)
    (backend : Outbound → BackendResult) :
    Except HTTPException Resp × List Outbound :=
  match SERVICES.lookup service with
  | none => (.error ⟨404, "Service \x27" ++ service ++ "\x27 not found"⟩, [])
  | some base_url =>
    let out := proxy_outbound service base_url path method req
    match backend out with
    | .success st hs content =>
      let response_headers := hs.filter (fun kv => !(excluded_headers.contains (str_lower kv.1)))
      (.ok { status := st, headers := response_headers, body := .raw content,
             mediaType := headers_get hs "content-type" }, [out])
    | .connectError =>
      (.error ⟨503, "Service \x27" ++ service ++
        "\x27 is temporarily unavailable. Please try again later."⟩, [out])
    | .timeout =>
      (.error ⟨504, "Service \x27" ++ service ++ "\x27 request timed out."⟩, [out])
    | .failure msg => (.error ⟨500, msg⟩, [out])

/-! ## Multipart upload adapters (`stt_transcribe`, `documents_upload`,
lines 212-253) -/

/-- The file tuple `(file.filename, content, file.content_type)` placed
under the form field `"file"` (lines 221, 242). -/
structure FilePart where
  fieldName : String
  filename : String
  content : List Nat
  content_type : String
deriving DecidableEq, Repr

/-- The outbound multipart POST issued by an upload adapter. -/
structure UploadOutbound where
  url : String
  filePart : FilePart
  params : List (String × String)
deriving DecidableEq, Repr

/-- Outcome of an upload adapter's outbound call: a response whose body
either parses as JSON or makes `response.json()` raise, a connection
error, or any other exception. -/
inductive UploadBackendResult where
  | response (jsonBody : Except String Json)
  | connectError
  | failure (msg : String)

/-- `SERVICES[name]` (dictionary access, lines 225 and 245). -/
def services_url (name : String) : String :=
  (SERVICES.lookup name).getD ""

/-- The file the client uploaded, as FastAPI presents it. -/
structure UploadFile where
  filename : String
  content_type : String
  content : List Nat
deriving DecidableEq, Repr

/-- `stt_transcribe` (lines 212-234): re-encodes the upload as a multipart
part, sends `language` as a query parameter, and returns `response.json()`
directly; `httpx.ConnectError` maps to 503, any other exception (including
a `response.json()` parse failure) to 500 with its message. -/
def stt_transcribe (file : UploadFile) (language : String)
    (backend : UploadOutbound → UploadBackendResult) :
    Except HTTPException Json × List UploadOutbound :=
  let out : UploadOutbound :=
    { url := services_url "stt" ++ "/api/stt/transcribe",
      filePart := ⟨"file", file.filename, file.content, file.content_type⟩,
      params := [("language", language)] }
  match backend out with
  | .response (.ok j) => (.ok j, [out])
  | .response (.error e) => (.error ⟨500, e⟩, [out])
  | .connectError => (.error ⟨503, "STT Service is unavailable"⟩, [out])
  | .failure msg => (.error ⟨500, msg⟩, [out])

/-- `documents_upload` (lines 236-253): same shape as `stt_transcribe`
without the query parameter. -/
def documents_upload (file : UploadFile)
    (backend : UploadOutbound → UploadBackendResult) :
    Except HTTPException Json × List UploadOutbound :=
  let out : UploadOutbound :=
    { url := services_url "documents" ++ "/api/documents/upload",
      filePart := ⟨"file", file.filename, file.content, file.content_type⟩,
      params := [] }
  match backend out with
  | .response (.ok j) => (.ok j, [out])
  | .response (.error e) => (.error ⟨500, e⟩, [out])
  | .connectError => (.error ⟨503, "Document Service is unavailable"⟩, [out])
  | .failure msg => (.error ⟨500, msg⟩, [out])

/-! ## Route table and dispatch

FastAPI registers routes in declaration order and Starlette dispatches to
the first full match, so registration order decides which handler runs. -/

/-- Handlers of the application, in registration order: the FastAPI
documentation routes created at `FastAPI(...)` time, then the decorated
handlers of `src/gateway/main.py` top to bottom. -/
inductive RouteId where
  | openapi
  | docs
  | root
  | health
  | servicesStatus
  | genericProxy
  | sttTranscribe
  | documentsUpload
deriving DecidableEq, Repr

/-- Route path patterns: an exact path, or the catch-all
`/\x7bservice\x7d/\x7bpath:path\x7d` (line 206), whose compiled regex is
`^/([^/]+)/(.*)$`. -/
inductive RoutePattern where
  | exact (p : String)
  | catchAll
deriving DecidableEq, Repr

/-- The compiled catch-all regex `^/([^/]+)/(.*)$`: a leading slash, a
nonempty slash-free segment, a second slash, then anything. -/
def catch_all_matches (path : String) : Bool :=
  match path.toList with
  | [] => false
  | c :: rest =>
    if c = '/' then
      match rest.dropWhile (fun ch => ch != '/') with
      | [] => false
      | _ :: _ => !(rest.takeWhile (fun ch => ch != '/')).isEmpty
    else false

/-- Whether a pattern matches a request path. -/
def pattern_matches : RoutePattern → String → Bool
  | .exact p, path => path == p
  | .catchAll, path => catch_all_matches path

/-- The application's route table in registration order. -/
def app_routes : List (RoutePattern × List String × RouteId) :=
  [(.exact "/openapi.json", ["GET"], .openapi),
   (.exact "/docs", ["GET"], .docs),
   (.exact "/", ["GET"], .root),
   (.exact "/health", ["GET"], .health),
   (.exact "/services/status", ["GET"], .servicesStatus),
   (.catchAll, ["GET", "POST", "PUT", "DELETE", "PATCH"], .genericProxy),
   (.exact "/stt/transcribe", ["POST"], .sttTranscribe),
   (.exact "/documents/upload", ["POST"], .documentsUpload)]

/-- Starlette dispatch: the first route whose pattern matches the path and
whose method set contains the request method. -/
def dispatch (method path : String) : Option RouteId :=
  (app_routes.find? (fun r => pattern_matches r.1 path && r.2.1.contains method)).map (·.2.2)

/-! ## Health aggregation (`services_status`, lines 111-139) -/

/-- Outcome of one `client.get(url ++ "/health")` probe: a response whose
body parses (or fails to parse) as JSON, or a raised exception with its
message. -/
inductive ProbeResult where
  | response (status : Nat) (jsonBody : Except String Json)
  | failure (msg : String)

/-- One entry of the returned status mapping (the per-service dicts built
at lines 121-137). -/
inductive StatusEntry where
  | healthy (url : String) (response : Json)
  | unhealthy (url : String) (error : String)
  | unreachable (url : String) (error : String)

/-- The per-service classification (the try/except body, lines 118-137):
status 200 with a parseable body is healthy; status 200 whose
`response.json()` raises falls to the `except` arm and is unreachable;
any other status is unhealthy; a raised probe is unreachable. -/
def classify_probe (url : String) : ProbeResult → StatusEntry
  | .response code jsonBody =>
    if code == 200 then
      match jsonBody with
      | .ok j => .healthy url j
      | .error e => .unreachable url e
    else .unhealthy url ("HTTP " ++ toString code)
  | .failure e => .unreachable url e

/-- `services_status` (lines 111-139): probes every registry entry and
classifies each independently.  `probe` is the network, keyed by service
base URL. -/
def services_status (probe : String → ProbeResult) : List (String × StatusEntry) :=
  SERVICES.map (fun nu => (nu.1, classify_probe nu.2 (probe nu.2)))

end Gateway

namespace EventBus

open Gateway (Json json_dumps)

/-- Observable events of the Kafka client: log lines and broker
interactions.  `brokerSend` carries the bytes produced by the
`value_serializer` (`json.dumps(v).encode`, line 21 of
`kafka_handler.py`). -/
inductive KEvent where
  | logInfo (msg : String)
  | logWarn (msg : String)
  | logError (msg : String)
  | brokerSend (topic : String) (bytes : String)
  | brokerFlush
deriving DecidableEq, Repr

/-- The broker-side environment: `connect i` is the outcome of the i-th
`KafkaProducer(...)` construction attempt (`none` = success, `some e` = the
raised exception's message); `send`/`flush` likewise give the outcome of
`producer.send` and `producer.flush`. -/
structure KafkaEnv where
  connect : Nat → Option String
  send : String → String → Option String
  flush : Option String

/-- `KafkaHandler` state: bootstrap address and the lazily-created
producer (present or not). -/
structure KafkaHandler where
  bootstrap_servers : String
  producer : Bool

/-- The retry loop of `get_producer` (lines 16-29): up to `retries`
construction attempts, breaking on the first success; each failure logs a
warning naming the retries left.  Returns whether a producer was created
and the events emitted. -/
def connect_loop (env : KafkaEnv) (attempt : Nat) : Nat → Bool × List KEvent
  | 0 => (false, [])
  | Nat.succ r =>
    match env.connect attempt with
    | none => (true, [.logInfo "Successfully connected to Kafka"])
    | some e =>
      let rest := connect_loop env (attempt + 1) r
      (rest.1, .logWarn ("Failed to connect to Kafka, retrying... (" ++ toString (r + 1) ++
        " left). Error: " ++ e) :: rest.2)

/-- `get_producer` (lines 13-33): returns the existing producer, or runs
the 5-attempt retry loop; if every attempt fails it logs an error and
leaves the producer unset rather than raising. -/
def get_producer (env : KafkaEnv) (h : KafkaHandler) : KafkaHandler × List KEvent :=
  if h.producer then (h, [])
  else
    let (ok, evs) := connect_loop env 0 5
    if ok then ({ h with producer := true }, evs)
    else (h, evs ++ [.logError "Could not connect to Kafka after multiple retries"])

/-- The `try` body of `send_message` (lines 37-43): get a producer; with
one, serialize and send, then flush, then log success; without one, log an
error.  The third component is the exception escaping the body, if any
(`producer.send` or `producer.flush` raising). -/
def send_message_attempt (env : KafkaEnv) (h : KafkaHandler) (topic : String)
    (message : Json) : KafkaHandler × List KEvent × Option String :=
  let (h1, evs) := get_producer env h
  if h1.producer then
    let bytes := json_dumps message
    match env.send topic bytes with
    | some e => (h1, evs, some e)
    | none =>
      match env.flush with
      | some e => (h1, evs ++ [.brokerSend topic bytes], some e)
      | none =>
        (h1, evs ++ [.brokerSend topic bytes, .brokerFlush,
          .logInfo ("Message sent to topic " ++ topic)], none)
  else
    (h1, evs ++ [.logError ("Cannot send message to " ++ topic ++ ": No producer available")],
      none)

/-- `send_message` (lines 35-45): the `try` body wrapped in
`except Exception`, which logs the error and returns normally — no
exception reaches the caller. -/
def send_message (env : KafkaEnv) (h : KafkaHandler) (topic : String) (message : Json) :
    KafkaHandler × List KEvent :=
  match send_message_attempt env h topic message with
  | (h1, evs, none) => (h1, evs)
  | (h1, evs, some e) => (h1, evs ++ [.logError ("Error sending message to Kafka: " ++ e)])

end EventBus

/-! ## Concrete sample values used to exercise the definitions -/

namespace Gateway

/-- A 200 response a downstream handler might produce. -/
def sample_ok_response : Resp :=
  { status := 200, headers := [("content-type", "application/json")],
    body := .json .null, mediaType := some "application/json" }

/-- A constant downstream handler. -/
def sample_call_next : Request → Resp := fun _ => sample_ok_response

/-- A second, distinguishable downstream handler. -/
def sample_call_next2 : Request → Resp :=
  fun _ => { status := 204, headers := [], body := .raw [], mediaType := none }

/-- A protected-path request with no Authorization header. -/
def sample_req_noauth : Request :=
  { method := "GET", path := "/stt/transcribe", headers := [], queryParams := [],
    body := [], client := some "203.0.113.7" }

/-- A protected-path request bearing a 5-character token. -/
def sample_req_shorttoken : Request :=
  { sample_req_noauth with headers := [("authorization", "Bearer short")] }

/-- A well-authenticated request with host/content-length and a custom
header, a query string and a body. -/
def sample_req_auth : Request :=
  { method := "POST", path := "/stt/data", queryParams := [("q", "1")],
    headers := [("authorization", "Bearer 123456789012"), ("host", "gw"),
                ("content-length", "3"), ("x-custom", "1")],
    body := [1, 2, 3], client := some "203.0.113.7" }

/-- A rate-limit configuration admitting nothing (ceiling 0). -/
def strict_cfg : RateLimitConfig := ⟨60, 0⟩

/-- A permissive rate-limit configuration. -/
def lenient_cfg : RateLimitConfig := ⟨60, 100⟩

/-- A backend answering 201 with hop-by-hop and ordinary headers. -/
def sample_backend_ok : Outbound → BackendResult :=
  fun _ => .success 201
    [("Content-Type", "application/json"), ("Content-Length", "2"),
     ("Connection", "keep-alive"), ("X-Upstream", "yes")] [123, 125]

/-- A backend refusing connections. -/
def sample_backend_down : Outbound → BackendResult := fun _ => .connectError

/-- An upload backend answering with a JSON document. -/
def sample_upload_backend : UploadOutbound → UploadBackendResult :=
  fun _ => .response (.ok (.obj [("text", .str "hello")]))

/-- An uploaded audio file. -/
def sample_file : UploadFile := ⟨"audio.webm", "audio/webm", [0, 1, 2]⟩

/-- A probe answering 200 with a parseable JSON body everywhere. -/
def sample_probe_ok : String → ProbeResult :=
  fun _ => .response 200 (.ok (.obj [("status", .str "healthy")]))

/-- A probe answering 200 with a body `response.json()` cannot parse. -/
def sample_probe_badjson : String → ProbeResult :=
  fun _ => .response 200 (.error "Expecting value: line 1 column 1 (char 0)")

end Gateway

namespace EventBus

/-- A broker that accepts the connection and every record. -/
def sample_env_ok : KafkaEnv := ⟨fun _ => none, fun _ _ => none, none⟩

/-- A broker refusing every connection attempt. -/
def sample_env_down : KafkaEnv :=
  ⟨fun _ => some "NoBrokersAvailable", fun _ _ => none, none⟩

/-- A fresh handler with no producer yet. -/
def sample_handler : KafkaHandler := ⟨"kafka:9092", false⟩

/-- A sample event payload. -/
def sample_payload : Gateway.Json := .obj [("a", .num 1)]

end EventBus

/-! ## Helper lemmas -/

namespace Gateway

theorem find?_filter_toLower_ne (l : List (String × String)) (k : String) :
    (l.filter (fun kv => str_lower kv.1 != str_lower k)).find?
      (fun kv => str_lower kv.1 == str_lower k) = none := by
  induction l with
  | nil => rfl
  | cons a t ih =>
    by_cases h : str_lower a.1 = str_lower k
    · simp [List.filter_cons, h, ih]
    · simp [List.filter_cons, h, List.find?_cons, ih]

theorem find?_filter_of_imp {α : Type} (p q : α → Bool) (l : List α)
    (h : ∀ x, p x = true → q x = true) :
    (l.filter q).find? p = l.find? p := by
  induction l with
  | nil => rfl
  | cons a t ih =>
    rw [List.filter_cons]
    by_cases hq : q a = true
    · rw [if_pos hq]
      by_cases hp : p a = true
      · rw [List.find?_cons_of_pos _ hp, List.find?_cons_of_pos _ hp]
      · rw [List.find?_cons_of_neg _ (by simp [hp]), List.find?_cons_of_neg _ (by simp [hp])]
        exact ih
    · rw [if_neg hq]
      have hp : ¬ p a = true := fun hpa => hq (h a hpa)
      rw [ih, List.find?_cons_of_neg _ (by simp [hp])]

theorem headers_get_set_self (hs : List (String × String)) (k v : String) :
    headers_get (header_set hs k v) k = some v := by
  unfold headers_get header_set
  rw [List.find?_append, find?_filter_toLower_ne]
  simp [List.find?_cons]

theorem headers_get_set_other (hs : List (String × String)) (k k' v : String)
    (h : str_lower k ≠ str_lower k') :
    headers_get (header_set hs k' v) k = headers_get hs k := by
  unfold headers_get header_set
  rw [List.find?_append]
  have h2 : (List.find? (fun kv => str_lower kv.1 == str_lower k) [(k', v)]) = none := by
    simp [List.find?_cons, Ne.symm h]
  rw [h2,
    find?_filter_of_imp (fun kv => str_lower kv.1 == str_lower k)
      (fun kv => str_lower kv.1 != str_lower k') hs
      (by intro x hx; simp only [beq_iff_eq] at hx; simp [bne_iff_ne, hx, h])]
  cases hs.find? (fun kv => str_lower kv.1 == str_lower k) <;> rfl

/-- `auth_check` only ever rejects with one of the two fixed responses. -/
theorem auth_check_cases (req : Request) :
    auth_check req = none ∨ auth_check req = some unauthorized_response ∨
      auth_check req = some forbidden_response := by
  unfold auth_check
  by_cases hp : req.path ∈ auth_exempt_paths
  · simp [hp]
  · simp only [hp, if_false, ite_false, if_neg]
    cases hh : headers_get req.headers "Authorization" with
    | none => simp
    | some s =>
      by_cases he : (s == "" || !str_starts_with s "Bearer ") = true
      · simp [he]
      · rcases Bool.eq_false_or_eq_true (verify_token ((str_split s ' ').getD 1 "")) with hv | hv
        all_goals simp only [List.getD_eq_getElem?_getD] at hv
        · refine Or.inl ?_
          simp [he, hv]
        · refine Or.inr (Or.inr ?_)
          simp [he, hv]

/-- A string beginning with `"Bearer "` is not empty. -/
theorem startsWith_bearer_ne_empty (s : String) (h : str_starts_with s "Bearer " = true) :
    (s == "") = false := by
  cases hs : s == ""
  · rfl
  · have hemp : s = "" := eq_of_beq hs
    rw [hemp] at h
    exact absurd h (by decide)

end Gateway

/-! ## Claim theorems -/

namespace Gateway

/-- Claim C1: a request whose client identifier has exceeded the
rate-limit ceiling within the current window receives the 429
"too many requests" response immediately, and the rest of the pipeline —
in particular the proxy stage reached through `call_next` — is never
invoked (the middleware result is a constant, independent of
`call_next`); a request the limiter admits passes this stage, its result
being exactly that of the downstream stages. -/
theorem c1_rate_limit_gate (cfg : RateLimitConfig)
    (table : List (String × RateLimitWindow)) (now elapsed : Nat) (req : Request) :
    ((check_rate_limit cfg table now (req.client.getD "unknown")).1 = false →
      (∀ call_next, security_and_logging_middleware cfg table now elapsed req call_next =
        (rate_limit_response,
         (check_rate_limit cfg table now (req.client.getD "unknown")).2, [])) ∧
      rate_limit_response.status = 429) ∧
    ((check_rate_limit cfg table now (req.client.getD "unknown")).1 = true →
      ∀ call_next, security_and_logging_middleware cfg table now elapsed req call_next =
        ((middleware_after_rate_limit elapsed req call_next).1,
         (check_rate_limit cfg table now (req.client.getD "unknown")).2,
         (middleware_after_rate_limit elapsed req call_next).2)) := by
  constructor
  · intro h
    refine ⟨fun call_next => ?_, rfl⟩
    simp only [security_and_logging_middleware, h]
    simp
  · intro h call_next
    simp only [security_and_logging_middleware, h]
    cases hm : middleware_after_rate_limit elapsed req call_next with
    | mk resp logs => simp [hm]

/-- Witness for C1: with a ceiling of 0, a concrete request is rejected
with the 429 response, no log line, and no downstream invocation. -/
theorem c1_rate_limit_gate_witness :
    security_and_logging_middleware strict_cfg [] 0 7 sample_req_noauth sample_call_next =
      (rate_limit_response, [("203.0.113.7", ⟨1, 0⟩)], []) :=
  ((c1_rate_limit_gate strict_cfg [] 0 7 sample_req_noauth).1 (by decide)).1 sample_call_next

/-- Claim C2: on a path outside the unauthenticated allow-list, a request
the rate limiter admits is rejected 401 when the Authorization header is
absent or does not start with "Bearer ", and 403 when a bearer token is
present but fails the validation predicate (length not greater than 10);
in every rejection the result is independent of `call_next`, so the
request is never forwarded to a backend. -/
theorem c2_bearer_auth_gate (cfg : RateLimitConfig)
    (table : List (String × RateLimitWindow)) (now elapsed : Nat) (req : Request)
    (hpath : req.path ∉ auth_exempt_paths)
    (hrl : (check_rate_limit cfg table now (req.client.getD "unknown")).1 = true) :
    (headers_get req.headers "Authorization" = none →
      (∀ call_next, security_and_logging_middleware cfg table now elapsed req call_next =
        (unauthorized_response,
         (check_rate_limit cfg table now (req.client.getD "unknown")).2, [])) ∧
      unauthorized_response.status = 401) ∧
    (∀ s, headers_get req.headers "Authorization" = some s →
      str_starts_with s "Bearer " = false →
      ∀ call_next, security_and_logging_middleware cfg table now elapsed req call_next =
        (unauthorized_response,
         (check_rate_limit cfg table now (req.client.getD "unknown")).2, [])) ∧
    (∀ s, headers_get req.headers "Authorization" = some s →
      str_starts_with s "Bearer " = true →
      ((str_split s ' ').getD 1 "").length ≤ 10 →
      (∀ call_next, security_and_logging_middleware cfg table now elapsed req call_next =
        (forbidden_response,
         (check_rate_limit cfg table now (req.client.getD "unknown")).2, [])) ∧
      forbidden_response.status = 403) := by
  refine ⟨?_, ?_, ?_⟩
  · intro hm
    have ha : auth_check req = some unauthorized_response := by
      unfold auth_check
      simp [hpath, hm]
    refine ⟨fun call_next => ?_, rfl⟩
    simp only [security_and_logging_middleware, hrl]
    simp [middleware_after_rate_limit, ha]
  · intro s hs hb call_next
    have ha : auth_check req = some unauthorized_response := by
      unfold auth_check
      simp [hpath, hs, hb]
    simp only [security_and_logging_middleware, hrl]
    simp [middleware_after_rate_limit, ha]
  · intro s hs hb hlen
    have hv : verify_token ((str_split s ' ').getD 1 "") = false := by
      simp only [verify_token, decide_eq_false_iff_not]
      omega
    simp only [List.getD_eq_getElem?_getD] at hv
    have ha : auth_check req = some forbidden_response := by
      unfold auth_check
      simp [hpath, hs, hb, startsWith_bearer_ne_empty s hb, hv]
    refine ⟨fun call_next => ?_, rfl⟩
    simp only [security_and_logging_middleware, hrl]
    simp [middleware_after_rate_limit, ha]

/-- Witness for C2: `GET /stt/transcribe` without an Authorization header
is answered 401; the same with `Authorization: Bearer short` is answered
403; neither reaches a backend. -/
theorem c2_bearer_auth_gate_witness :
    security_and_logging_middleware lenient_cfg [] 0 7 sample_req_noauth sample_call_next =
      (unauthorized_response, [("203.0.113.7", ⟨1, 0⟩)], []) ∧
    security_and_logging_middleware lenient_cfg [] 0 7 sample_req_shorttoken sample_call_next =
      (forbidden_response, [("203.0.113.7", ⟨1, 0⟩)], []) :=
  ⟨((c2_bearer_auth_gate lenient_cfg [] 0 7 sample_req_noauth (by decide) (by decide)).1
      (by decide)).1 sample_call_next,
   (((c2_bearer_auth_gate lenient_cfg [] 0 7 sample_req_shorttoken (by decide)
        (by decide)).2.2 "Bearer short" (by decide) (by decide) (by decide)).1
      sample_call_next)⟩

/-- Claim C3: for every service name not present in the service registry,
proxying any method and sub-path to that service returns a 404 Not-Found
classification, and no outbound call is attempted (the list of issued
outbound requests is empty, for every backend). -/
theorem c3_unknown_service_not_found (service path : String) (req : Request)
    (method : Option String) (backend : Outbound → BackendResult)
    (h : SERVICES.lookup service = none) :
    proxy_request service path req method backend =
      (.error ⟨404, "Service \x27" ++ service ++ "\x27 not found"⟩, []) := by
  unfold proxy_request
  rw [h]

/-- Witness for C3: the service name "unknownservice" is not registered,
and proxying to it yields 404 with no outbound call. -/
theorem c3_unknown_service_not_found_witness :
    proxy_request "unknownservice" "x" sample_req_auth none sample_backend_ok =
      (.error ⟨404, "Service \x27unknownservice\x27 not found"⟩, []) :=
  c3_unknown_service_not_found "unknownservice" "x" sample_req_auth none
    sample_backend_ok (by rfl)

/-- Claim C5: a generic proxy call to a known service issues exactly one
outbound request carrying the inbound method, query parameters, and raw
body unchanged, and every inbound header except the host and
content-length entries; on success the caller receives the backend's
status and body verbatim, the four hop-by-hop headers are removed from
the relayed headers by a case-insensitive filter, every other backend
header is kept, and the backend's Content-Type is preserved as the
response media type. -/
theorem c5_proxy_round_trip (service base_url path : String) (req : Request)
    (backend : Outbound → BackendResult)
    (hserv : SERVICES.lookup service = some base_url) :
    (proxy_request service path req none backend).2 =
      [proxy_outbound service base_url path none req] ∧
    (proxy_outbound service base_url path none req).method = req.method ∧
    (proxy_outbound service base_url path none req).content = req.body ∧
    (proxy_outbound service base_url path none req).params = req.queryParams ∧
    (proxy_outbound service base_url path none req).url =
      base_url ++ "/api/" ++ service ++ "/" ++ path ∧
    (∀ kv, kv ∈ (proxy_outbound service base_url path none req).headers ↔
      (kv ∈ req.headers ∧ kv.1 ≠ "host" ∧ kv.1 ≠ "content-length")) ∧
    (∀ st hs content,
      backend (proxy_outbound service base_url path none req) = .success st hs content →
      ∃ resp, (proxy_request service path req none backend).1 = .ok resp ∧
        resp.status = st ∧ resp.body = .raw content ∧
        resp.mediaType = headers_get hs "content-type" ∧
        (∀ kv, kv ∈ resp.headers ↔ (kv ∈ hs ∧ str_lower kv.1 ∉ excluded_headers))) := by
  refine ⟨?_, rfl, rfl, rfl, rfl, ?_, ?_⟩
  · simp only [proxy_request, hserv]
    cases backend (proxy_outbound service base_url path none req) <;> simp
  · intro kv
    simp [proxy_outbound, List.mem_filter, not_or]
  · intro st hs content hb
    refine ⟨⟨st, hs.filter (fun kv => !(excluded_headers.contains (str_lower kv.1))),
      .raw content, headers_get hs "content-type"⟩, ?_, rfl, rfl, rfl, ?_⟩
    · simp [proxy_request, hserv, hb]
    · intro kv
      simp [List.mem_filter]

/-- Witness for C5: a concrete authenticated request proxied to the stt
service issues exactly the expected single outbound call. -/
theorem c5_proxy_round_trip_witness :
    (proxy_request "stt" "data" sample_req_auth none sample_backend_ok).2 =
      [proxy_outbound "stt" "http://stt-service:8001" "data" none sample_req_auth] :=
  (c5_proxy_round_trip "stt" "http://stt-service:8001" "data" sample_req_auth
    sample_backend_ok (by decide)).1

/-- Claim C6: for a known service the proxy classifies failures
exhaustively and mutually exclusively — connection failure to 503 with a
generic message, timeout to 504, any other exception to 500 carrying its
message, success to a relayed response — and in every case exactly one
outbound attempt is issued, with no retry. -/
theorem c6_proxy_failure_classification (service base_url path : String) (req : Request)
    (backend : Outbound → BackendResult)
    (hserv : SERVICES.lookup service = some base_url) :
    (proxy_request service path req none backend).2 =
      [proxy_outbound service base_url path none req] ∧
    (backend (proxy_outbound service base_url path none req) = .connectError →
      (proxy_request service path req none backend).1 =
        .error ⟨503, "Service \x27" ++ service ++
          "\x27 is temporarily unavailable. Please try again later."⟩) ∧
    (backend (proxy_outbound service base_url path none req) = .timeout →
      (proxy_request service path req none backend).1 =
        .error ⟨504, "Service \x27" ++ service ++ "\x27 request timed out."⟩) ∧
    (∀ msg, backend (proxy_outbound service base_url path none req) = .failure msg →
      (proxy_request service path req none backend).1 = .error ⟨500, msg⟩) ∧
    (∀ st hs content,
      backend (proxy_outbound service base_url path none req) = .success st hs content →
      ∃ resp, (proxy_request service path req none backend).1 = .ok resp) := by
  refine ⟨?_, ?_, ?_, ?_, ?_⟩
  · simp only [proxy_request, hserv]
    cases backend (proxy_outbound service base_url path none req) <;> simp
  · intro hb
    simp [proxy_request, hserv, hb]
  · intro hb
    simp [proxy_request, hserv, hb]
  · intro msg hb
    simp [proxy_request, hserv, hb]
  · intro st hs content hb
    refine ⟨⟨st, hs.filter (fun kv => !(excluded_headers.contains (str_lower kv.1))),
      .raw content, headers_get hs "content-type"⟩, ?_⟩
    simp [proxy_request, hserv, hb]

/-- Witness for C6: with the stt backend refusing connections, the proxy
answers 503 with the generic unavailability message after its single
outbound attempt. -/
theorem c6_proxy_failure_classification_witness :
    (proxy_request "stt" "data" sample_req_auth none sample_backend_down).1 =
      .error ⟨503,
        "Service \x27stt\x27 is temporarily unavailable. Please try again later."⟩ :=
  (c6_proxy_failure_classification "stt" "http://stt-service:8001" "data" sample_req_auth
    sample_backend_down (by decide)).2.1 rfl

/-- Counterexample to C7 as stated: a rate-limited request is answered
429 with no elapsed-time header attached and no log line emitted — the
early return at lines 55-58 skips the instrumentation of lines 78-84, so
the attachment and logging do not happen for every inbound request. -/
theorem c7_counterexample :
    (security_and_logging_middleware strict_cfg [] 0 7 sample_req_noauth
      sample_call_next).1.status = 429 ∧
    headers_get (security_and_logging_middleware strict_cfg [] 0 7 sample_req_noauth
      sample_call_next).1.headers "X-Process-Time" = none ∧
    (security_and_logging_middleware strict_cfg [] 0 7 sample_req_noauth
      sample_call_next).2.2 = [] :=
  ⟨rfl, rfl, rfl⟩

/-- Claim C7 (amended): the elapsed-time header, the fixed security
header and the single method/path/status/latency log line are attached
exactly for the requests that pass the rate-limit and authentication
stages; a request rejected by either stage receives its fixed JSON
rejection response, which carries neither header, and no log line. -/
theorem c7_stage_scoped_headers_log (cfg : RateLimitConfig)
    (table : List (String × RateLimitWindow)) (now elapsed : Nat) (req : Request)
    (call_next : Request → Resp) :
    ((check_rate_limit cfg table now (req.client.getD "unknown")).1 = true →
      auth_check req = none →
      headers_get (security_and_logging_middleware cfg table now elapsed req
        call_next).1.headers "X-Process-Time" = some (toString elapsed) ∧
      headers_get (security_and_logging_middleware cfg table now elapsed req
        call_next).1.headers "X-Content-Type-Options" = some "nosniff" ∧
      (security_and_logging_middleware cfg table now elapsed req call_next).2.2 =
        [⟨req.method, req.path,
          (security_and_logging_middleware cfg table now elapsed req call_next).1.status,
          elapsed⟩]) ∧
    ((check_rate_limit cfg table now (req.client.getD "unknown")).1 = false ∨
        auth_check req ≠ none →
      headers_get (security_and_logging_middleware cfg table now elapsed req
        call_next).1.headers "X-Process-Time" = none ∧
      (security_and_logging_middleware cfg table now elapsed req call_next).2.2 = []) := by
  constructor
  · intro hrl hauth
    simp only [security_and_logging_middleware, hrl, middleware_after_rate_limit, hauth]
    refine ⟨?_, ?_, rfl⟩
    · simp only [if_true]
      rw [headers_get_set_other _ _ _ _ (by decide), headers_get_set_self]
    · simp only [if_true]
      rw [headers_get_set_self]
  · intro hrej
    cases hrl : (check_rate_limit cfg table now (req.client.getD "unknown")).1 with
    | false =>
      simp only [security_and_logging_middleware, hrl]
      exact ⟨rfl, rfl⟩
    | true =>
      have hauth : auth_check req ≠ none := by
        rcases hrej with hx | hx
        · rw [hrl] at hx; exact absurd hx (by simp)
        · exact hx
      rcases auth_check_cases req with hnone | hr | hr
      · exact absurd hnone hauth
      · simp only [security_and_logging_middleware, hrl, middleware_after_rate_limit, hr]
        exact ⟨rfl, rfl⟩
      · simp only [security_and_logging_middleware, hrl, middleware_after_rate_limit, hr]
        exact ⟨rfl, rfl⟩

/-- Witness for the amended C7: a well-authenticated request under a
permissive limiter carries both instrumentation headers and produces the
single log line. -/
theorem c7_stage_scoped_headers_log_witness :
    headers_get (security_and_logging_middleware lenient_cfg [] 0 7 sample_req_auth
      sample_call_next).1.headers "X-Process-Time" = some (toString 7) ∧
    headers_get (security_and_logging_middleware lenient_cfg [] 0 7 sample_req_auth
      sample_call_next).1.headers "X-Content-Type-Options" = some "nosniff" ∧
    (security_and_logging_middleware lenient_cfg [] 0 7 sample_req_auth
      sample_call_next).2.2 =
      [⟨sample_req_auth.method, sample_req_auth.path,
        (security_and_logging_middleware lenient_cfg [] 0 7 sample_req_auth
          sample_call_next).1.status, 7⟩] :=
  (c7_stage_scoped_headers_log lenient_cfg [] 0 7 sample_req_auth sample_call_next).1
    (by decide) (by rfl)

/-- Claim C8: for every probe outcome over the registered services, the
fleet health operation returns one entry per registered service, in
registry order; each entry is classified independently from its own
probe alone — 200 with a parseable payload is healthy embedding that
payload, any other status is unhealthy recording the code, an exception
is unreachable recording the error text — and an entry depends only on
its own service's probe outcome. -/
theorem c8_health_aggregation (probe : String → ProbeResult) :
    (services_status probe).length = SERVICES.length ∧
    (services_status probe).map Prod.fst = SERVICES.map Prod.fst ∧
    (∀ name url, (name, url) ∈ SERVICES →
      (name, classify_probe url (probe url)) ∈ services_status probe) ∧
    (∀ name url j, (name, url) ∈ SERVICES → probe url = .response 200 (.ok j) →
      (name, StatusEntry.healthy url j) ∈ services_status probe) ∧
    (∀ name url st body, (name, url) ∈ SERVICES → probe url = .response st body →
      st ≠ 200 →
      (name, StatusEntry.unhealthy url ("HTTP " ++ toString st)) ∈ services_status probe) ∧
    (∀ name url e, (name, url) ∈ SERVICES → probe url = .failure e →
      (name, StatusEntry.unreachable url e) ∈ services_status probe) ∧
    (∀ (probe2 : String → ProbeResult) name url, (name, url) ∈ SERVICES →
      probe url = probe2 url →
      (name, classify_probe url (probe url)) ∈ services_status probe2) := by
  refine ⟨by simp [services_status], by simp [services_status], ?_, ?_, ?_, ?_, ?_⟩
  · intro name url hmem
    exact List.mem_map_of_mem _ hmem
  · intro name url j hmem hp
    have mem := List.mem_map_of_mem
      (fun nu => (nu.1, classify_probe nu.2 (probe nu.2))) hmem
    simp only at mem
    rw [hp] at mem
    exact mem
  · intro name url st body hmem hp hne
    have mem := List.mem_map_of_mem
      (fun nu => (nu.1, classify_probe nu.2 (probe nu.2))) hmem
    simp only at mem
    rw [hp] at mem
    rw [show classify_probe url (.response st body) =
        .unhealthy url ("HTTP " ++ toString st) by simp [classify_probe, hne]] at mem
    exact mem
  · intro name url e hmem hp
    have mem := List.mem_map_of_mem
      (fun nu => (nu.1, classify_probe nu.2 (probe nu.2))) hmem
    simp only at mem
    rw [hp] at mem
    exact mem
  · intro probe2 name url hmem hagree
    have mem := List.mem_map_of_mem
      (fun nu => (nu.1, classify_probe nu.2 (probe2 nu.2))) hmem
    simp only at mem
    rw [← hagree] at mem
    exact mem

/-- Witness for C8: with every probe answering 200 and a JSON body, the
stt entry is classified healthy with that payload embedded. -/
theorem c8_health_aggregation_witness :
    ("stt", StatusEntry.healthy "http://stt-service:8001"
      (.obj [("status", .str "healthy")])) ∈ services_status sample_probe_ok :=
  (c8_health_aggregation sample_probe_ok).2.2.2.1 "stt" "http://stt-service:8001"
    (.obj [("status", .str "healthy")]) (by decide) rfl

/-- Claim C10: a probe answering HTTP 200 with a body `response.json()`
cannot parse is classified unreachable with the parse error text, not
healthy, because the decode happens inside the same exception-guarded
block as the probe. -/
theorem c10_health_bad_json_unreachable (probe : String → ProbeResult)
    (name url e : String) (hmem : (name, url) ∈ SERVICES)
    (hp : probe url = .response 200 (.error e)) :
    (name, StatusEntry.unreachable url e) ∈ services_status probe := by
  have mem := List.mem_map_of_mem
    (fun nu => (nu.1, classify_probe nu.2 (probe nu.2))) hmem
  simp only at mem
  rw [hp] at mem
  exact mem

/-- Witness for C10: a 200 probe whose body fails JSON decoding yields an
unreachable entry recording the decoder's message. -/
theorem c10_health_bad_json_unreachable_witness :
    ("stt", StatusEntry.unreachable "http://stt-service:8001"
      "Expecting value: line 1 column 1 (char 0)") ∈
        services_status sample_probe_badjson :=
  c10_health_bad_json_unreachable sample_probe_badjson "stt" "http://stt-service:8001"
    "Expecting value: line 1 column 1 (char 0)" (by decide) rfl

/-- Claim C4 (code bug): POSTs to the two upload paths never reach the
multipart upload adapters.  Starlette dispatches to the first registered
full route match, and the catch-all proxy route (line 206) is registered
before `stt_transcribe` (line 212) and `documents_upload` (line 236), so
both POSTs are dispatched to the generic byte-passthrough proxy.  The
adapters themselves — dead code — do behave as the claim describes: at the
failing input they would build the multipart file part from the upload and
relay the backend JSON unwrapped. -/
theorem c4_upload_routes_shadowed :
    dispatch "POST" "/stt/transcribe" = some RouteId.genericProxy ∧
    dispatch "POST" "/documents/upload" = some RouteId.genericProxy ∧
    RouteId.genericProxy ≠ RouteId.sttTranscribe ∧
    RouteId.genericProxy ≠ RouteId.documentsUpload ∧
    (stt_transcribe sample_file "ar" sample_upload_backend).1 =
      .ok (.obj [("text", .str "hello")]) ∧
    (stt_transcribe sample_file "ar" sample_upload_backend).2 =
      [{ url := "http://stt-service:8001/api/stt/transcribe",
         filePart := ⟨"file", "audio.webm", [0, 1, 2], "audio/webm"⟩,
         params := [("language", "ar")] }] :=
  ⟨by decide, by decide, by decide, by decide, rfl, rfl⟩

end Gateway

namespace EventBus

/-- Claim C9: `send_message` never propagates an error to its caller.
Any exception escaping the send/flush body is caught, logged, and the
call returns normally; when the broker is reachable the payload is
serialized to its JSON encoding, sent, and flushed before the success log
and the return; when every connection attempt fails, the call still
returns normally with the failure logged, so the caller's own operation
proceeds exactly as it would without the publish. -/
theorem c9_send_never_raises (env : KafkaEnv) (h : KafkaHandler) (topic : String)
    (message : Gateway.Json) :
    (∀ h1 evs e, send_message_attempt env h topic message = (h1, evs, some e) →
      send_message env h topic message =
        (h1, evs ++ [.logError ("Error sending message to Kafka: " ++ e)])) ∧
    (∀ h1 evs, send_message_attempt env h topic message = (h1, evs, none) →
      send_message env h topic message = (h1, evs)) ∧
    (h.producer = false → env.connect 0 = none →
      env.send topic (Gateway.json_dumps message) = none → env.flush = none →
      send_message env h topic message =
        (⟨h.bootstrap_servers, true⟩,
         [.logInfo "Successfully connected to Kafka",
          .brokerSend topic (Gateway.json_dumps message), .brokerFlush,
          .logInfo ("Message sent to topic " ++ topic)])) ∧
    (∀ e, h.producer = false → (∀ i, env.connect i = some e) →
      send_message env h topic message =
        (h, [.logWarn ("Failed to connect to Kafka, retrying... (" ++ toString 5 ++
              " left). Error: " ++ e),
             .logWarn ("Failed to connect to Kafka, retrying... (" ++ toString 4 ++
              " left). Error: " ++ e),
             .logWarn ("Failed to connect to Kafka, retrying... (" ++ toString 3 ++
              " left). Error: " ++ e),
             .logWarn ("Failed to connect to Kafka, retrying... (" ++ toString 2 ++
              " left). Error: " ++ e),
             .logWarn ("Failed to connect to Kafka, retrying... (" ++ toString 1 ++
              " left). Error: " ++ e),
             .logError "Could not connect to Kafka after multiple retries",
             .logError ("Cannot send message to " ++ topic ++
              ": No producer available")])) := by
  refine ⟨?_, ?_, ?_, ?_⟩
  · intro h1 evs e ha
    simp only [send_message, ha]
  · intro h1 evs ha
    simp only [send_message, ha]
  · intro hp hc hsend hflush
    simp [send_message, send_message_attempt, get_producer, connect_loop, hp, hc,
      hsend, hflush]
  · intro e hp hc
    simp [send_message, send_message_attempt, get_producer, connect_loop, hp, hc]

/-- Witness for C9: with every broker connection attempt failing, a
publish returns normally with the five retry warnings and the two error
logs, leaving the handler unchanged. -/
theorem c9_send_never_raises_witness :
    send_message sample_env_down sample_handler "chat.message" sample_payload =
      (sample_handler,
       [.logWarn ("Failed to connect to Kafka, retrying... (" ++ toString 5 ++
          " left). Error: " ++ "NoBrokersAvailable"),
        .logWarn ("Failed to connect to Kafka, retrying... (" ++ toString 4 ++
          " left). Error: " ++ "NoBrokersAvailable"),
        .logWarn ("Failed to connect to Kafka, retrying... (" ++ toString 3 ++
          " left). Error: " ++ "NoBrokersAvailable"),
        .logWarn ("Failed to connect to Kafka, retrying... (" ++ toString 2 ++
          " left). Error: " ++ "NoBrokersAvailable"),
        .logWarn ("Failed to connect to Kafka, retrying... (" ++ toString 1 ++
          " left). Error: " ++ "NoBrokersAvailable"),
        .logError "Could not connect to Kafka after multiple retries",
        .logError ("Cannot send message to " ++ "chat.message" ++
          ": No producer available")]) :=
  (c9_send_never_raises sample_env_down sample_handler "chat.message"
    sample_payload).2.2.2 "NoBrokersAvailable" rfl (fun _ => rfl)

end EventBus




